import Mathlib

/-!
Shallow embedding of `src/cli.py` of the tdxplot repository, together with
spec-modelled stubs for the collaborator modules (`report.py`,
`organization.py`) that are not part of the sources.  The embedding keeps the
source's function names (`check_file`, `check_date`, `set_query_type`,
`check_options`, `clean_args`, `check_report`, `main`) and models Python's
`exit(1)` calls as the `Except.error` constructor.
-/

set_option autoImplicit false

namespace Tdxplot

/-! ## Python values and dictionaries

The CLI passes around a `dict` produced by `vars(parser.parse_args())`.
Values in it are strings, ints, bools, `None`, and (after `clean_args`)
`datetime` and `Building` objects.  `Val` covers those cases. -/

/-- A (model of a) Python `datetime` value as produced by
`datetime.strptime` with the date-only formats of `DATE_FORMATS`. -/
structure PyDate where
  year : Nat
  month : Nat
  day : Nat
deriving DecidableEq, Repr

/-- Modelled from the spec: `organization.py` is not under `src/`.  A
`Building` is a physical building whose identity is its normalized name;
the canonical display form is stored in `name`. -/
structure Building where
  name : String
deriving DecidableEq, Repr

/-- A Python value as it occurs in the CLI's `args` dictionary. -/
inductive Val where
  | vNone : Val
  | vStr (s : String) : Val
  | vInt (n : Int) : Val
  | vBool (b : Bool) : Val
  | vDate (d : PyDate) : Val
  | vBuilding (b : Building) : Val
deriving DecidableEq, Repr

/-- Python truthiness of a `Val`: `None`, `""`, `0` and `False` are falsy;
`datetime` and `Building` objects define no `__bool__`/`__len__` and are
always truthy. -/
def truthy : Val → Bool
  | Val.vNone => false
  | Val.vStr s => !(s == "")
  | Val.vInt n => !(n == 0)
  | Val.vBool b => b
  | Val.vDate _ => true
  | Val.vBuilding _ => true

/-- The `args` dictionary: an insertion-ordered association list, like a
Python `dict`. -/
def Args : Type := List (String × Val)

/-- Python `args[k]` (`dict.__getitem__`): `none` models a `KeyError`. -/
def ditem (args : Args) (k : String) : Option Val :=
  match args with
  | [] => none
  | (k', v) :: rest => if k' = k then some v else ditem rest k

/-- Python `args.get(k)`: like `args[k]` but a missing key yields `None`. -/
def dget (args : Args) (k : String) : Val :=
  (ditem args k).getD Val.vNone

/-- Python `args[k] = v` (`dict.__setitem__`): replace in place if the key
exists, else append (dicts preserve insertion order). -/
def dset (args : Args) (k : String) (v : Val) : Args :=
  match args with
  | [] => [(k, v)]
  | (k', v') :: rest => if k' = k then (k, v) :: rest else (k', v') :: dset rest k v

/-- Python `x == "lit"` where `x` is an arbitrary dictionary value: only a
`str` can compare equal to a string literal. -/
def valEqStr (v : Val) (t : String) : Bool :=
  match v with
  | Val.vStr s => s == t
  | _ => false

/-! ## The `datetime.strptime` model

`check_date` probes CPython's `datetime.strptime`.  CPython compiles each
format into a regex (`_strptime.TimeRE`): `%Y` is `\d\d\d\d`, `%y` is
`\d\d`, `%m` is `1[0-2]|0[1-9]|[1-9]`, `%d` is `3[01]|[12]\d|0[1-9]|[1-9]`,
other characters are escaped literals.  The regex is matched as a prefix
(backtracking, alternatives in written order), then the match must span the
whole input ("unconverted data remains" otherwise), then the captured
fields must form a valid date (`datetime.__init__` validates). -/

/-- Captured directive values during a `strptime` match. -/
structure Caps where
  capY : Option Nat
  capy : Option Nat
  capm : Option Nat
  capd : Option Nat
deriving DecidableEq, Repr

/-- The empty capture set. -/
def Caps.init : Caps := ⟨none, none, none, none⟩

/-- Numeric value of a decimal digit character. -/
def digitVal (c : Char) : Nat := c.toNat - '0'.toNat

/-- Candidates (value, remaining input) for `%Y`, regex `\d\d\d\d`. -/
def candsY (input : List Char) : List (Nat × List Char) :=
  match input with
  | a :: b :: c :: d :: rest =>
    if a.isDigit && b.isDigit && c.isDigit && d.isDigit then
      [(digitVal a * 1000 + digitVal b * 100 + digitVal c * 10 + digitVal d, rest)]
    else []
  | _ => []

/-- Candidates for `%y`, regex `\d\d`. -/
def candsy (input : List Char) : List (Nat × List Char) :=
  match input with
  | a :: b :: rest => if a.isDigit && b.isDigit then [(digitVal a * 10 + digitVal b, rest)] else []
  | _ => []

/-- Candidates for `%m`, regex `1[0-2]|0[1-9]|[1-9]`, in alternation
order (the order the backtracking engine prefers). -/
def candsm (input : List Char) : List (Nat × List Char) :=
  (match input with
   | '1' :: b :: rest => if '0' ≤ b && b ≤ '2' then [(10 + digitVal b, rest)] else []
   | _ => []) ++
  (match input with
   | '0' :: b :: rest => if '1' ≤ b && b ≤ '9' then [(digitVal b, rest)] else []
   | _ => []) ++
  (match input with
   | a :: rest => if '1' ≤ a && a ≤ '9' then [(digitVal a, rest)] else []
   | _ => [])

/-- Candidates for `%d`, regex `3[01]|[12]\d|0[1-9]|[1-9]`, in alternation
order. -/
def candsd (input : List Char) : List (Nat × List Char) :=
  (match input with
   | '3' :: b :: rest => if b == '0' || b == '1' then [(30 + digitVal b, rest)] else []
   | _ => []) ++
  (match input with
   | a :: b :: rest =>
     if (a == '1' || a == '2') && b.isDigit then [(digitVal a * 10 + digitVal b, rest)] else []
   | _ => []) ++
  (match input with
   | '0' :: b :: rest => if '1' ≤ b && b ≤ '9' then [(digitVal b, rest)] else []
   | _ => []) ++
  (match input with
   | a :: rest => if '1' ≤ a && a ≤ '9' then [(digitVal a, rest)] else []
   | _ => [])

/-- All candidates of a directive character, in backtracking preference
order; an unknown directive matches nothing. -/
def dirCands (dir : Char) (input : List Char) : List (Nat × List Char) :=
  if dir == 'Y' then candsY input
  else if dir == 'y' then candsy input
  else if dir == 'm' then candsm input
  else if dir == 'd' then candsd input
  else []

/-- Record a directive's captured value. -/
def setCap (caps : Caps) (dir : Char) (v : Nat) : Caps :=
  if dir == 'Y' then { caps with capY := some v }
  else if dir == 'y' then { caps with capy := some v }
  else if dir == 'm' then { caps with capm := some v }
  else { caps with capd := some v }

/-- Backtracking matcher for a compiled format against an input prefix:
returns the captures and the unconsumed input of the preferred match, like
`format_regex.match(data_string)`. -/
def matchFmt : List Char → List Char → Caps → Option (Caps × List Char)
  | [], input, caps => some (caps, input)
  | ['%'], _, _ => none
  | '%' :: dir :: fmtRest, input, caps =>
    (dirCands dir input).findSome? (fun vr => matchFmt fmtRest vr.2 (setCap caps dir vr.1))
  | c :: fmtRest, input, caps =>
    match input with
    | [] => none
    | i :: irest => if i == c then matchFmt fmtRest irest caps else none

/-- Gregorian leap-year test, as in `datetime`. -/
def isLeap (y : Nat) : Bool :=
  y % 4 == 0 && (!(y % 100 == 0) || y % 400 == 0)

/-- Number of days of a month, as validated by `datetime.__init__`. -/
def daysInMonth (year month : Nat) : Nat :=
  if month == 2 then (if isLeap year then 29 else 28)
  else if month == 4 || month == 6 || month == 9 || month == 11 then 30
  else 31

/-- Build the `datetime` from the captures: `%y` maps `00–68` to `2000–2068`
and `69–99` to `1969–1999`; missing fields default to 1900-01-01; the
constructor rejects invalid dates (that `ValueError` is what the caller's
bare `except` catches). -/
def capsToDate (caps : Caps) : Option PyDate :=
  let year : Nat :=
    match caps.capY with
    | some v => v
    | none =>
      match caps.capy with
      | some v => if v ≤ 68 then v + 2000 else v + 1900
      | none => 1900
  let month : Nat := (caps.capm).getD 1
  let day : Nat := (caps.capd).getD 1
  if 1 ≤ year && year ≤ 9999 && 1 ≤ month && month ≤ 12 && 1 ≤ day && day ≤ daysInMonth year month
  then some ⟨year, month, day⟩
  else none

/-- Model of `datetime.strptime(data_string, fmt)` for the date-only
formats used by the CLI: `none` models the raised `ValueError`. -/
def strptime (data_string : String) (fmt : String) : Option PyDate :=
  match matchFmt fmt.toList data_string.toList Caps.init with
  | none => none
  | some (caps, rest) => if rest.isEmpty then capsToDate caps else none

/-- `DATE_FORMATS` from `cli.py` (the last entry is duplicated in the
source). -/
def DATE_FORMATS : List String :=
  ["%Y-%m-%d", "%m/%d/%Y", "%m/%d/%y", "%d.%m.%Y", "%d.%m.%Y"]

/-- The `for date_format in DATE_FORMATS: try/break/except continue` loop
of `check_date`: first successful parse wins. -/
def tryFormats : List String → String → Option PyDate
  | [], _ => none
  | f :: fs, s =>
    match strptime s f with
    | some d => some d
    | none => tryFormats fs s

/-- `check_date` from `cli.py`: probe the formats in order; if none parses
(`if not date`, and a parsed `datetime` is always truthy) print an error
and `exit(1)`. -/
def check_date (date_text : String) : Except String PyDate :=
  match tryFormats DATE_FORMATS date_text with
  | none => Except.error ("Date " ++ date_text ++ " not recognized, try yyyy-mm-dd")
  | some d => Except.ok d

/-! ## `check_file` and the `os.path.splitext` model -/

/-- Model of Python `str.lower` for one character (ASCII case folding,
which covers the `.csv` extension comparison). -/
def pyLowerChar (c : Char) : Char :=
  if 'A' ≤ c && c ≤ 'Z' then Char.ofNat (c.toNat + 32) else c

/-- Model of Python `str.lower`. -/
def pyLower (s : String) : String :=
  String.mk (s.toList.map pyLowerChar)

/-- Model of Python `str.strip()`: remove leading and trailing
whitespace. -/
def pyStrip (s : String) : String :=
  String.mk (((s.toList.dropWhile Char.isWhitespace).reverse.dropWhile
    Char.isWhitespace).reverse)

/-- Index of the last occurrence of a character, like `str.rfind` (as an
offset into the character list). -/
def lastIdxOf (cs : List Char) (c : Char) : Option Nat :=
  match cs.reverse.findIdx? (fun x => x == c) with
  | none => none
  | some i => some (cs.length - 1 - i)

/-- Model of POSIX `os.path.splitext` (`genericpath._splitext` with
`sep = '/'`, no `altsep`, `extsep = '.'`): split at the last dot of the
final path component, except that a basename consisting only of leading
dots has no extension. -/
def splitext (p : String) : String × String :=
  let cs := p.toList
  let sepIdx : Int := match lastIdxOf cs '/' with | some i => (i : Int) | none => -1
  let dotIdx : Int := match lastIdxOf cs '.' with | some i => (i : Int) | none => -1
  if sepIdx < dotIdx then
    let lo : Nat := (sepIdx + 1).toNat
    let ext : Nat := dotIdx.toNat
    if ((cs.drop lo).take (ext - lo)).any (fun x => x != '.') then
      (String.mk (cs.take ext), String.mk (cs.drop ext))
    else (p, "")
  else (p, "")

/-- `check_file` from `cli.py`, with `os.path.exists` abstracted as the
predicate `fs`.  The `filename.strip()` on line 35 of the source returns a
new string that is discarded, so it is a no-op (kept as the unused
`_stripped`). -/
def check_file (fs : String → Bool) (filename : String) : Except String Unit :=
  if filename = "" then Except.error "No file input provided"
  else
    let _stripped := pyStrip filename
    if fs filename = false then Except.error ("File " ++ filename ++ " not found")
    else if pyLower (splitext filename).2 ≠ ".csv" then
      Except.error ("File " ++ filename ++ " is not a CSV file")
    else Except.ok ()

/-! ## Query-type selection and option checks -/

/-- `QUERY_TYPES` from `cli.py`. -/
def QUERY_TYPES : List String := ["perweek", "perbuilding", "perroom"]

/-- The loop body of `set_query_type`: for each query-type flag that is
truthy, error out if `querytype` is already truthy, else set it. -/
def set_query_type_go : List String → Args → Except String Args
  | [], args => Except.ok args
  | t :: ts, args =>
    if truthy (dget args t) then
      if truthy (dget args "querytype") then
        Except.error "Pass exactly one query type argument (e.g. --perweek)"
      else set_query_type_go ts (dset args "querytype" (Val.vStr t))
    else set_query_type_go ts args

/-- `set_query_type` from `cli.py`. -/
def set_query_type (args : Args) : Except String Args :=
  set_query_type_go QUERY_TYPES args

/-- `check_options` from `cli.py`: four sequential `if` checks, each of
which prints and `exit(1)`s when its condition holds. -/
def check_options (args : Args) : Except String Unit :=
  if truthy (dget args "perroom") && !(truthy (dget args "building")) then
    Except.error "No building specified, please specify a building for --perroom using --building [BUILDING_NAME]."
  else if truthy (dget args "perbuilding") && truthy (dget args "building") then
    Except.error "Cannot filter to a single building in in a --perbuilding query"
  else if !(truthy (dget args "perweek")) && !(dget args "weeks" == Val.vNone) then
    Except.error "Cannot pass --weeks without --perweek"
  else if truthy (dget args "weeks") && truthy (dget args "termend") then
    Except.error "Cannot pass --weeks and --termend simultaneously"
  else Except.ok ()

/-! ## The collaborator modules, modelled from the spec -/

/-- Modelled from the spec: `organization.py` is not under `src/`.  The
`Organization` registry holds the buildings created during ingestion. -/
structure Organization where
  buildings : List Building
deriving DecidableEq

/-- Modelled from the spec: `find_building(name) -> Building | absent` is a
case-insensitive, whitespace-trimmed lookup that returns absent (not an
error) when no match. -/
def Organization.find_building (org : Organization) (nm : String) : Option Building :=
  org.buildings.find? (fun b => pyLower (pyStrip b.name) == pyLower (pyStrip nm))

/-- Modelled from the spec: `report.py` is not under `src/`.  A `Report`
exposes `fields_present`, the set of canonical field names actually found
in the source file's header. -/
structure Report where
  fields_present : List String
deriving DecidableEq

/-! ## `clean_args` and `check_report` -/

/-- One date-normalisation step of `clean_args`:
`if args.get(key): args[key] = check_date(args[key])`.  A truthy non-string
value would raise a `TypeError` inside `strptime`, which the bare `except`
turns into all formats failing; we model it as a run-terminating error. -/
def cleanTermDate (args : Args) (key : String) : Except String Args :=
  if truthy (dget args key) then
    match dget args key with
    | Val.vStr s =>
      match check_date s with
      | Except.ok d => Except.ok (dset args key (Val.vDate d))
      | Except.error e => Except.error e
    | _ => Except.error "TypeError"
  else Except.ok args

/-- `clean_args` from `cli.py`: normalise `termstart` and `termend` to
`datetime`s, then replace a truthy `building` entry by the result of
`org.find_building` and `exit(1)` if that result is falsy (`None`). -/
def clean_args (args : Args) (org : Organization) : Except String Args :=
  match cleanTermDate args "termstart" with
  | Except.error e => Except.error e
  | Except.ok a1 =>
    match cleanTermDate a1 "termend" with
    | Except.error e => Except.error e
    | Except.ok a2 =>
      if truthy (dget a2 "building") then
        match dget a2 "building" with
        | Val.vStr s =>
          let a3 := dset a2 "building"
            (match org.find_building s with
             | some b => Val.vBuilding b
             | none => Val.vNone)
          if truthy (dget a3 "building") then Except.ok a3
          else Except.error "No such building found in report"
        | _ => Except.error "TypeError"
      else Except.ok a2

/-- `check_report` from `cli.py`: `args["querytype"]` (a `KeyError` if
missing), then one presence check per query type. -/
def check_report (args : Args) (report : Report) : Except String Unit :=
  match ditem args "querytype" with
  | none => Except.error "KeyError: querytype"
  | some query_type =>
    if valEqStr query_type "perweek" && !(report.fields_present.contains "Created") then
      Except.error "Cannot run a tickets-per-week query without Created field present in report"
    else if valEqStr query_type "perbuilding" && !(report.fields_present.contains "Class Support Building") then
      Except.error "Cannot run a tickets-per-building query without Class Support Building field present in report"
    else if valEqStr query_type "perroom" &&
        (!(report.fields_present.contains "Class Support Building") ||
         !(report.fields_present.contains "Room number")) then
      Except.error "Cannot run a tickets-per-room query without Class Support Building and Room number field present in report"
    else Except.ok ()

/-! ## The `main` pipeline as a trace semantics

`main` is straight-line code where every failure calls `exit(1)`.  We
record the observable actions of the final block (invoking a query
operation, emitting output) as events; an aborted run produces no events. -/

/-- An observable action of `main`'s final block: running one of the query
operations `per_week`/`per_building`/`per_room`, or emitting output
(`view_per_week`/`print`). -/
inductive Event where
  | queryRun (qt : String) : Event
  | output : Event
deriving DecidableEq, Repr

/-- The inputs `main` consumes from its environment: the last `argv` entry,
the file system (`os.path.exists`), the parsed-argument dictionary
(`vars(parser.parse_args())`), and the outcome of report ingestion
(`Report(...)` / `report.populate(org)`, which may raise
`MalformedReportError`). -/
structure MainInput where
  filename : String
  fs : String → Bool
  parsedArgs : Args
  load : Except String (Report × Organization)

/-- The query-dispatch block at the end of `main`: three sequential `if`s
on `args["querytype"]`, each running its query and emitting its output. -/
def run_queries (args : Args) : List Event × Except String Unit :=
  match ditem args "querytype" with
  | none => ([], Except.error "KeyError: querytype")
  | some qt =>
    ((if valEqStr qt "perweek" then [Event.queryRun "perweek", Event.output] else []) ++
     (if valEqStr qt "perbuilding" then [Event.queryRun "perbuilding", Event.output] else []) ++
     (if valEqStr qt "perroom" then [Event.queryRun "perroom", Event.output] else []),
     Except.ok ())

/-- `main` from `cli.py`: the `filename.strip()` result is discarded, then
`check_file`, `set_query_type`, `check_options`, report ingestion,
`check_report`, `clean_args`, and finally the query dispatch.  Any
`exit(1)` (or uncaught exception) aborts with no events. -/
def main (inp : MainInput) : List Event × Except String Unit :=
  let filename := inp.filename
  let _stripped := pyStrip filename
  match check_file inp.fs filename with
  | Except.error e => ([], Except.error e)
  | Except.ok _ =>
    let args := dset inp.parsedArgs "filename" (Val.vStr filename)
    match set_query_type args with
    | Except.error e => ([], Except.error e)
    | Except.ok args =>
      match check_options args with
      | Except.error e => ([], Except.error e)
      | Except.ok _ =>
        match inp.load with
        | Except.error e => ([], Except.error e)
        | Except.ok (report, org) =>
          match check_report args report with
          | Except.error e => ([], Except.error e)
          | Except.ok _ =>
            match clean_args args org with
            | Except.error e => ([], Except.error e)
            | Except.ok args => run_queries args

/-! ## Small helpers used by the theorems -/

/-- `true` iff the run returned normally. -/
def exOk {α : Type} (e : Except String α) : Bool :=
  match e with
  | Except.ok _ => true
  | Except.error _ => false

/-- `true` iff the run terminated with an error (`exit(1)` or an uncaught
exception). -/
def exErr {α : Type} (e : Except String α) : Bool :=
  match e with
  | Except.ok _ => false
  | Except.error _ => true

/-- The canonical fields the spec requires for each query type (stated
from the spec's words, for comparison with `check_report`). -/
def requiredFields (qt : String) : List String :=
  if qt = "perweek" then ["Created"]
  else if qt = "perbuilding" then ["Class Support Building"]
  else if qt = "perroom" then ["Class Support Building", "Room number"]
  else []

/-! ## Dictionary lemmas -/

theorem ditem_dset_self (a : Args) (k : String) (v : Val) :
    ditem (dset a k v) k = some v := by
  induction a with
  | nil => simp [dset, ditem]
  | cons p rest ih =>
    obtain ⟨k', v'⟩ := p
    by_cases h : k' = k
    · simp [dset, h, ditem]
    · simp [dset, h, ditem, ih]

theorem ditem_dset_ne (a : Args) (k k' : String) (v : Val) (h : k' ≠ k) :
    ditem (dset a k v) k' = ditem a k' := by
  induction a with
  | nil => simp [dset, ditem, Ne.symm h]
  | cons p rest ih =>
    obtain ⟨k'', v''⟩ := p
    by_cases h2 : k'' = k
    · subst h2
      simp [dset, ditem, Ne.symm h]
    · simp [dset, h2, ditem, ih]

theorem dget_dset_self (a : Args) (k : String) (v : Val) :
    dget (dset a k v) k = v := by
  simp [dget, ditem_dset_self]

theorem dget_dset_ne (a : Args) (k k' : String) (v : Val) (h : k' ≠ k) :
    dget (dset a k v) k' = dget a k' := by
  simp [dget, ditem_dset_ne a k k' v h]

theorem truthy_beq_vNone (v : Val) (h : truthy v = true) : (v == Val.vNone) = false := by
  cases v <;> simp_all [truthy]

/-! ## `check_date` lemmas -/

theorem tryFormats_eq_find (s : String) :
    ∀ l : List String,
      tryFormats l s = (l.find? (fun f => (strptime s f).isSome)).bind (fun f => strptime s f)
  | [] => rfl
  | f :: fs => by
    cases h : strptime s f with
    | some d => simp [tryFormats, List.find?_cons, h]
    | none => simp [tryFormats, List.find?_cons, h, tryFormats_eq_find s fs]

/-! ## `cleanTermDate` frame lemma -/

theorem cleanTermDate_frame (a a' : Args) (key k : String)
    (h : cleanTermDate a key = Except.ok a') (hk : k ≠ key) :
    ditem a' k = ditem a k := by
  unfold cleanTermDate at h
  split at h
  · split at h
    · split at h
      · injection h with h'
        rw [← h']
        exact ditem_dset_ne a key k _ hk
      · exact Except.noConfusion h
    all_goals exact Except.noConfusion h
  · injection h with h'
    rw [h']

theorem cleanTermDate_frame_dget (a a' : Args) (key k : String)
    (h : cleanTermDate a key = Except.ok a') (hk : k ≠ key) :
    dget a' k = dget a k := by
  simp [dget, cleanTermDate_frame a a' key k h hk]

/-! ## `check_file` characterisation (shared by C5 and C10) -/

theorem check_file_ok_char (fs : String → Bool) (s : String) :
    exOk (check_file fs s) = true ↔
      (s ≠ "" ∧ fs s = true ∧ pyLower (splitext s).2 = ".csv") := by
  unfold check_file
  split_ifs with h1 h2 h3
  · simp [exOk, h1]
  · simp [exOk, h2]
  · simp [exOk, h3]
  · have h2' : fs s = true := by simpa using h2
    have h3' : pyLower (splitext s).2 = ".csv" := not_not.mp h3
    simp [exOk, h1, h2', h3']

/-! ## `main` trace lemmas -/

theorem run_queries_cases (a : Args) :
    (run_queries a).1 = [] ∨ (run_queries a).2 = Except.ok () := by
  unfold run_queries
  cases h : ditem a "querytype" with
  | none => exact Or.inl rfl
  | some qt => exact Or.inr rfl

theorem main_cases (inp : MainInput) :
    (main inp).1 = [] ∨ (main inp).2 = Except.ok () := by
  rcases hm : main inp with ⟨tr, out⟩
  simp only [main] at hm
  simp only []
  split at hm
  · injection hm with ha hb
    exact Or.inl ha.symm
  · split at hm
    · injection hm with ha hb
      exact Or.inl ha.symm
    · split at hm
      · injection hm with ha hb
        exact Or.inl ha.symm
      · split at hm
        · injection hm with ha hb
          exact Or.inl ha.symm
        · split at hm
          · injection hm with ha hb
            exact Or.inl ha.symm
          · split at hm
            · injection hm with ha hb
              exact Or.inl ha.symm
            · rcases run_queries_cases ‹Args› with hq | hq
              all_goals rw [hm] at hq
              · exact Or.inl hq
              · exact Or.inr hq

/-! ## The claims -/

/-- C1: for every date string, `check_date` returns the datetime produced by
the first format in `DATE_FORMATS` that parses it, and terminates with an
error if and only if no format in the list parses the string; in particular
on "2023-01-10" it returns the datetime for 10 January 2023 rather than
failing. -/
theorem c1_check_date_first_format (s : String) :
    (∀ d : PyDate, check_date s = Except.ok d ↔
      ∃ fmt, DATE_FORMATS.find? (fun f => (strptime s f).isSome) = some fmt ∧
        strptime s fmt = some d) ∧
    (exErr (check_date s) = true ↔ ∀ fmt ∈ DATE_FORMATS, strptime s fmt = none) ∧
    check_date "2023-01-10" = Except.ok ⟨2023, 1, 10⟩ := by
  refine ⟨?_, ?_, rfl⟩
  · intro d
    unfold check_date
    rw [tryFormats_eq_find]
    cases hf : DATE_FORMATS.find? (fun f => (strptime s f).isSome) with
    | none => simp
    | some fmt =>
      have hp := List.find?_some hf
      cases hd : strptime s fmt with
      | none => simp [hd] at hp
      | some d0 => simp [hd, eq_comm]
  · unfold check_date
    rw [tryFormats_eq_find]
    cases hf : DATE_FORMATS.find? (fun f => (strptime s f).isSome) with
    | none =>
      rw [List.find?_eq_none] at hf
      simp [exErr]
      intro fmt hm
      have := hf fmt hm
      simpa using this
    | some fmt =>
      have hp := List.find?_some hf
      have hmem := List.mem_of_find?_eq_some hf
      cases hd : strptime s fmt with
      | none => simp [hd] at hp
      | some d0 =>
        simp [exErr, hd]
        exact ⟨fmt, hmem, by simp [hd]⟩

/-- C2: `check_report(args, report)` terminates with an error if and only if
a canonical field required by `args["querytype"]` is absent from
`report.fields_present` — "Created" for perweek, "Class Support Building"
for perbuilding, both "Class Support Building" and "Room number" for
perroom; when every required field is present it returns normally. -/
theorem c2_check_report_required_fields (args : Args) (report : Report) (qt : String)
    (h : ditem args "querytype" = some (Val.vStr qt)) :
    exOk (check_report args report) = true ↔
      ∀ f ∈ requiredFields qt, f ∈ report.fields_present := by
  unfold check_report
  rw [h]
  by_cases h1 : qt = "perweek"
  · subst h1
    by_cases hc : "Created" ∈ report.fields_present <;>
      simp [requiredFields, valEqStr, hc, exOk]
  · by_cases h2 : qt = "perbuilding"
    · subst h2
      by_cases hc : "Class Support Building" ∈ report.fields_present <;>
        simp [requiredFields, valEqStr, hc, exOk]
    · by_cases h3 : qt = "perroom"
      · subst h3
        by_cases hc : "Class Support Building" ∈ report.fields_present <;>
          by_cases hr : "Room number" ∈ report.fields_present <;>
            simp [requiredFields, valEqStr, hc, hr, exOk]
      · simp [requiredFields, valEqStr, h1, h2, h3, exOk]

theorem c2_check_report_required_fields_w :
    exOk (check_report [("querytype", Val.vStr "perweek")] ⟨["Created"]⟩) = true :=
  (c2_check_report_required_fields [("querytype", Val.vStr "perweek")] ⟨["Created"]⟩
    "perweek" rfl).mpr (by decide)

/-- C3: for every options dict in which the perroom flag is set and no
building is given, `check_options` terminates with a precondition error, so
a per-room query is never executed over all buildings. -/
theorem c3_perroom_requires_building (args : Args)
    (h1 : truthy (dget args "perroom") = true)
    (h2 : truthy (dget args "building") = false) :
    exErr (check_options args) = true := by
  unfold check_options
  simp [h1, h2, exErr]

theorem c3_perroom_requires_building_w :
    exErr (check_options [("perroom", Val.vBool true)]) = true :=
  c3_perroom_requires_building [("perroom", Val.vBool true)] rfl rfl

/-- C4: for every options dict in which the perbuilding flag is set and a
building filter is also given, `check_options` terminates with an error: a
query-time restriction to a single building is disallowed for the
per-building query. -/
theorem c4_perbuilding_no_building_filter (args : Args)
    (h1 : truthy (dget args "perbuilding") = true)
    (h2 : truthy (dget args "building") = true) :
    exErr (check_options args) = true := by
  unfold check_options
  simp [h1, h2, exErr]

theorem c4_perbuilding_no_building_filter_w :
    exErr (check_options [("perbuilding", Val.vBool true), ("building", Val.vStr "X")]) = true :=
  c4_perbuilding_no_building_filter [("perbuilding", Val.vBool true), ("building", Val.vStr "X")]
    rfl rfl

/-- C5: for every filename, `check_file` returns normally if and only if the
filename is non-empty, names an existing file, and its extension compared
case-insensitively equals ".csv"; otherwise it terminates with an error. -/
theorem c5_check_file_iff (fs : String → Bool) (s : String) :
    exOk (check_file fs s) = true ↔
      (s ≠ "" ∧ fs s = true ∧ pyLower (splitext s).2 = ".csv") :=
  check_file_ok_char fs s

/-- C6: in every run of `main`, all fatal conditions are detected eagerly
and terminate the run before any of the query operations `per_week`,
`per_building`, or `per_room` is invoked, so no partial output is ever
emitted for a failed query (an aborted run has an empty event trace). -/
theorem c6_fail_fast (inp : MainInput) (h : exErr (main inp).2 = true) :
    (main inp).1 = [] := by
  rcases main_cases inp with hq | hq
  · exact hq
  · rw [hq] at h
    exact Bool.noConfusion h

theorem c6_fail_fast_w :
    (main ⟨"", fun _ => false, [], Except.error "MalformedReportError"⟩).1 = [] :=
  c6_fail_fast ⟨"", fun _ => false, [], Except.error "MalformedReportError"⟩ rfl

/-- C7: for every options dict carrying a building name, `clean_args`
replaces that entry with the `Building` returned by the Organization's
`find_building` lookup, and terminates with an error when `find_building`
returns absent, so a query never proceeds with an unresolved building
name. -/
theorem c7_building_resolution (args : Args) (org : Organization) (s : String)
    (hb : dget args "building" = Val.vStr s) (hs : s ≠ "") :
    (∀ args', clean_args args org = Except.ok args' →
      ∃ b, org.find_building s = some b ∧
        ditem args' "building" = some (Val.vBuilding b)) ∧
    (org.find_building s = none → exErr (clean_args args org) = true) := by
  cases h1 : cleanTermDate args "termstart" with
  | error e =>
    refine ⟨fun args' habs => ?_, fun _ => ?_⟩
    · simp [clean_args, h1] at habs
    · simp [clean_args, h1, exErr]
  | ok a1 =>
    cases h2 : cleanTermDate a1 "termend" with
    | error e =>
      refine ⟨fun args' habs => ?_, fun _ => ?_⟩
      · simp [clean_args, h1, h2] at habs
      · simp [clean_args, h1, h2, exErr]
    | ok a2 =>
      have hb2 : dget a2 "building" = Val.vStr s := by
        rw [cleanTermDate_frame_dget a1 a2 "termend" "building" h2 (by decide),
            cleanTermDate_frame_dget args a1 "termstart" "building" h1 (by decide), hb]
      cases hfb : org.find_building s with
      | some b =>
        have hkey : clean_args args org = Except.ok (dset a2 "building" (Val.vBuilding b)) := by
          simp [clean_args, h1, h2, hb2, hfb, dget_dset_self, truthy, hs]
        refine ⟨fun args' heq => ?_, fun habs => ?_⟩
        · rw [hkey] at heq
          injection heq with heq'
          exact ⟨b, rfl, by rw [← heq']; exact ditem_dset_self a2 "building" (Val.vBuilding b)⟩
        · exact Option.noConfusion habs
      | none =>
        have hkey : clean_args args org = Except.error "No such building found in report" := by
          simp [clean_args, h1, h2, hb2, hfb, dget_dset_self, truthy, hs]
        refine ⟨fun args' heq => ?_, fun _ => ?_⟩
        · rw [hkey] at heq
          exact Except.noConfusion heq
        · rw [hkey]
          rfl

theorem c7_building_resolution_w :
    exErr (clean_args [("building", Val.vStr "Oregon Hall")] ⟨[]⟩) = true :=
  (c7_building_resolution [("building", Val.vStr "Oregon Hall")] ⟨[]⟩ "Oregon Hall"
    rfl (by decide)).2 rfl

/-- C8: `check_options` terminates with an error for every options dict in
which both a truthy weeks value and a truthy termend value are given: the
weeks and termend options are mutually exclusive at the interface. -/
theorem c8_weeks_termend_exclusive (args : Args)
    (h1 : truthy (dget args "weeks") = true)
    (h2 : truthy (dget args "termend") = true) :
    exErr (check_options args) = true := by
  unfold check_options
  have hne : (dget args "weeks" == Val.vNone) = false := truthy_beq_vNone _ h1
  split_ifs with a b c d
  · rfl
  · rfl
  · rfl
  · rfl
  · simp [h1, h2] at d

theorem c8_weeks_termend_exclusive_w :
    exErr (check_options [("perweek", Val.vBool true), ("weeks", Val.vInt 2),
      ("termend", Val.vStr "2023-03-20")]) = true :=
  c8_weeks_termend_exclusive [("perweek", Val.vBool true), ("weeks", Val.vInt 2),
    ("termend", Val.vStr "2023-03-20")] rfl rfl

/-- C9: `clean_args` mutates at most the "termstart", "termend", and
"building" entries of the options dict; the value bound to every other key
is unchanged by the call. -/
theorem c9_clean_args_frame (args args' : Args) (org : Organization) (k : String)
    (h : clean_args args org = Except.ok args')
    (h1 : k ≠ "termstart") (h2 : k ≠ "termend") (h3 : k ≠ "building") :
    ditem args' k = ditem args k := by
  cases hc1 : cleanTermDate args "termstart" with
  | error e => simp [clean_args, hc1] at h
  | ok a1 =>
    cases hc2 : cleanTermDate a1 "termend" with
    | error e => simp [clean_args, hc1, hc2] at h
    | ok a2 =>
      have f1 : ditem a1 k = ditem args k := cleanTermDate_frame args a1 "termstart" k hc1 h1
      have f2 : ditem a2 k = ditem a1 k := cleanTermDate_frame a1 a2 "termend" k hc2 h2
      simp only [clean_args, hc1, hc2] at h
      split at h
      · split at h
        · split at h
          · injection h with h'
            rw [← h', ditem_dset_ne a2 "building" k _ h3, f2, f1]
          · exact Except.noConfusion h
        all_goals exact Except.noConfusion h
      · injection h with h'
        rw [← h', f2, f1]

theorem c9_clean_args_frame_w :
    ditem [("name", Val.vStr "t"), ("building", Val.vBuilding ⟨"B"⟩)] "name" =
      ditem [("name", Val.vStr "t"), ("building", Val.vStr "B")] "name" :=
  c9_clean_args_frame [("name", Val.vStr "t"), ("building", Val.vStr "B")]
    [("name", Val.vStr "t"), ("building", Val.vBuilding ⟨"B"⟩)] ⟨[⟨"B"⟩]⟩ "name"
    rfl (by decide) (by decide) (by decide)

/-- C10: the filename taken from the command line is validated verbatim:
`strip()` results are discarded, so for every filename with leading or
trailing whitespace the existence and extension checks are applied to the
string with the spaces included (and `main` passes the unstripped filename
to `check_file`). -/
theorem c10_strip_discarded (fs : String → Bool) (s : String) (h : pyStrip s ≠ s) :
    (exOk (check_file fs s) = true ↔
      (fs s = true ∧ pyLower (splitext s).2 = ".csv")) ∧
    (fs s = false → exErr (check_file fs s) = true) ∧
    (∀ pa load, fs s = false → exErr (main ⟨s, fs, pa, load⟩).2 = true) := by
  have hs : s ≠ "" := by
    intro he
    rw [he] at h
    exact h rfl
  have hmain : ∀ pa load, fs s = false → exErr (main ⟨s, fs, pa, load⟩).2 = true := by
    intro pa load hf
    have herr : exOk (check_file fs s) = false := by
      rcases hq : exOk (check_file fs s) with _ | _
      · rfl
      · have := (check_file_ok_char fs s).mp hq
        rw [hf] at this
        exact Bool.noConfusion this.2.1
    simp only [main]
    cases hcf : check_file fs s with
    | error e => rfl
    | ok u => rw [hcf] at herr; exact Bool.noConfusion herr
  refine ⟨?_, ?_, hmain⟩
  · rw [check_file_ok_char fs s]
    exact ⟨fun hc => ⟨hc.2.1, hc.2.2⟩, fun hc => ⟨hs, hc.1, hc.2⟩⟩
  · intro hf
    have herr := (check_file_ok_char fs s).not
    rcases hq : check_file fs s with e | u
    · rfl
    · have : exOk (check_file fs s) = true := by rw [hq]; rfl
      have hc := (check_file_ok_char fs s).mp this
      rw [hf] at hc
      exact Bool.noConfusion hc.2.1

theorem c10_strip_discarded_w :
    exErr (check_file (fun t => t == "report.csv") " report.csv") = true :=
  (c10_strip_discarded (fun t => t == "report.csv") " report.csv" (by decide)).2.1 rfl

end Tdxplot
